import Mathlib

/-!
Verification of the Coral Protocol connector of the Yona_Langchain repository.

The development shallowly embeds the Python sources:
  * `src/coral/message_processor.py` (class `CoralMessageProcessor`):
    message dispatch, the handler registry and the four business handlers;
  * `src/coral/sse_client.py` (class `CoralSSEClient`):
    the SSE listening loop, the heartbeat loop and the outbound senders;
  * `yona_coral_langchain_agent.py` (`main`): the bounded-retry connect loop.

Python dictionaries (`Dict[str, Any]`) are modelled as association lists over
a closed value type `PyVal`; Python exceptions are modelled with
`Except String` where the `String` is the exception's text (`str(e)`);
fallible code therefore returns `Except`/`Option` values and the outer
`try/except` blocks become explicit `match`es on those results.
-/

set_option autoImplicit false

namespace Yona

/-- Closed model of the Python values that flow through the connector:
strings, integers (also standing in for the opaque timestamp numbers),
booleans, `None`, lists and string-keyed dictionaries. -/
inductive PyVal where
  | str (s : String)
  | num (n : Int)
  | bool (b : Bool)
  | none
  | list (xs : List PyVal)
  | dict (entries : List (String × PyVal))

/-- A Python dictionary with string keys, as used for every message payload. -/
abbrev PyDict := List (String × PyVal)

/-- Python truthiness (`if not x`) for the modelled values: empty string,
zero, `False`, `None` and empty containers are falsy. -/
def pyTruthy : PyVal → Bool
  | .str s => s != ""
  | .num n => n != 0
  | .bool b => b
  | .none => false
  | .list xs => !xs.isEmpty
  | .dict d => !d.isEmpty

/-- The single-quote character, used by the Python `repr` of strings. -/
def squote : String := String.singleton (Char.ofNat 39)

mutual

/-- Python `repr` of a value (simplified: string contents are not escaped;
no string in the repository's messages needs escaping). -/
def pyRepr : PyVal → String
  | .str s => squote ++ s ++ squote
  | .num n => toString n
  | .bool true => "True"
  | .bool false => "False"
  | .none => "None"
  | .list xs => "[" ++ pyReprList xs ++ "]"
  | .dict d => "\x7b" ++ pyReprDict d ++ "\x7d"

/-- Comma-separated `repr`s of the elements of a Python list. -/
def pyReprList : List PyVal → String
  | [] => ""
  | [x] => pyRepr x
  | x :: y :: xs => pyRepr x ++ ", " ++ pyReprList (y :: xs)

/-- Comma-separated `repr`s of the entries of a Python dict. -/
def pyReprDict : List (String × PyVal) → String
  | [] => ""
  | [(k, v)] => squote ++ k ++ squote ++ ": " ++ pyRepr v
  | (k, v) :: e :: es =>
      squote ++ k ++ squote ++ ": " ++ pyRepr v ++ ", " ++ pyReprDict (e :: es)

end

/-- Python `str()` as used by f-string interpolation: the identity on
strings, `repr`-like on everything else. -/
def pyToString : PyVal → String
  | .str s => s
  | v => pyRepr v

/-- Model of `d.get(k, dflt)` on a value already known to be a dict. -/
def pyDictGet (d : PyDict) (k : String) (dflt : PyVal) : PyVal :=
  match d.find? (fun p => p.1 == k) with
  | some p => p.2
  | Option.none => dflt

/-- Text standing for the Python `AttributeError` raised when `.get` is
called on a non-dict value (the interpreter's exact wording is not
modelled; no claim depends on it). -/
def attrGetError : String := "AttributeError: object has no attribute get"

/-- Model of `v.get(k, dflt)` on an arbitrary value: raises
(`Except.error`) when `v` is not a dict, exactly as Python raises
`AttributeError` there. -/
def pyGetAttr (v : PyVal) (k : String) (dflt : PyVal) : Except String PyVal :=
  match v with
  | .dict d => Except.ok (pyDictGet d k dflt)
  | _ => Except.error attrGetError

/-- True exactly when the value is a Python dict. -/
def PyVal.isDict : PyVal → Bool
  | .dict _ => true
  | _ => false

/-! ## `src/coral/message_processor.py` — `CoralMessageProcessor`

The processor holds a `YonaLangChainAgent`, whose only operation used by the
handlers is `process_request(request: str)`.  That agent is an external
collaborator (business logic, out of the spec's scope), so every definition
below is parametrised by `pr : String → Except String PyVal`, the model of
`self.yona_agent.process_request` (it may return any value or raise). -/

/-- Model of `self.yona_agent.process_request`. -/
abbrev ProcessRequest := String → Except String PyVal

/-- `CoralMessageProcessor._handle_create_song` (lines 118–155): reads
`prompt` with default `""`, raises `ValueError` when it is falsy, otherwise
asks the agent and wraps the answer.  The handler's own `try/except` only
logs and re-raises, so it is the identity on exceptions. -/
def handle_create_song (pr : ProcessRequest) (arguments : PyVal) :
    Except String PyVal := do
  let prompt ← pyGetAttr arguments "prompt" (.str "")
  if pyTruthy prompt then do
    let response ← pr ("Create a song based on this prompt: " ++ pyToString prompt)
    Except.ok (.dict [("title", .str "Song for Team Angus"),
      ("prompt", prompt),
      ("response", response),
      ("status", .str "completed"),
      ("created_by", .str "yona_agent")])
  else
    Except.error "Missing required argument: prompt"

/-- `CoralMessageProcessor._handle_list_songs` (lines 157–186). -/
def handle_list_songs (pr : ProcessRequest) (arguments : PyVal) :
    Except String PyVal := do
  let limit ← pyGetAttr arguments "limit" (.num 10)
  let response ← pr ("List the " ++ pyToString limit ++ " most recent songs")
  Except.ok (.dict [("songs", response),
    ("limit", limit),
    ("status", .str "completed")])

/-- `CoralMessageProcessor._handle_get_song` (lines 188–219): `song_id`
defaults to `None` and a falsy value raises `ValueError`. -/
def handle_get_song (pr : ProcessRequest) (arguments : PyVal) :
    Except String PyVal := do
  let song_id ← pyGetAttr arguments "song_id" .none
  if pyTruthy song_id then do
    let response ← pr ("Get details for song ID: " ++ pyToString song_id)
    Except.ok (.dict [("song_id", song_id),
      ("details", response),
      ("status", .str "completed")])
  else
    Except.error "Missing required argument: song_id"

/-- `CoralMessageProcessor._handle_search_songs` (lines 221–255). -/
def handle_search_songs (pr : ProcessRequest) (arguments : PyVal) :
    Except String PyVal := do
  let query ← pyGetAttr arguments "query" (.str "")
  if pyTruthy query then do
    let limit ← pyGetAttr arguments "limit" (.num 10)
    let response ← pr ("Search for songs matching: " ++ pyToString query ++
      ", limit " ++ pyToString limit ++ " results")
    Except.ok (.dict [("query", query),
      ("results", response),
      ("limit", limit),
      ("status", .str "completed")])
  else
    Except.error "Missing required argument: query"

/-- `self.supported_functions` (lines 27–32): the handler registry, a dict
from function name to bound handler method. -/
def supported_functions (pr : ProcessRequest) :
    List (String × (PyVal → Except String PyVal)) :=
  [("create_song", handle_create_song pr),
   ("list_songs", handle_list_songs pr),
   ("get_song", handle_get_song pr),
   ("search_songs", handle_search_songs pr)]

/-- `list(self.supported_functions.keys())`, in registration order. -/
def supportedFunctionNames : List String :=
  ["create_song", "list_songs", "get_song", "search_songs"]

/-- Registry lookup: `function_name in self.supported_functions` followed by
`self.supported_functions[function_name]`.  A non-string value is in no
dict keyed by strings, so the lookup fails on it. -/
def supportedLookup (pr : ProcessRequest) (v : PyVal) :
    Option (PyVal → Except String PyVal) :=
  match v with
  | .str s => ((supported_functions pr).find? (fun p => p.1 == s)).map Prod.snd
  | _ => Option.none

/-- Python `repr` of a list of strings, as interpolated into the
unsupported-function error message. -/
def pyStrListRepr (names : List String) : String :=
  "[" ++ String.intercalate ", " (names.map (fun n => squote ++ n ++ squote)) ++ "]"

/-- The error message of line 86:
`f"Unsupported function: {function_name}. Supported functions: {list(self.supported_functions.keys())}"`. -/
def unsupportedMsg (function_name : PyVal) : String :=
  "Unsupported function: " ++ pyToString function_name ++
  ". Supported functions: " ++ pyStrListRepr supportedFunctionNames

/-- The `except` block of `_handle_function_call` (lines 109–116).  It
re-reads `function` with default `"unknown"` and the correlation id from
`message_data.get("metadata", {}).get("message_id")`; that second `.get`
itself raises when `metadata` is present but not a dict, and that exception
propagates out of `_handle_function_call` (modelled by `Except.error`). -/
def fc_except_block (d : PyDict) (e : String) : Except String PyVal :=
  match pyGetAttr (pyDictGet d "metadata" (.dict [])) "message_id" .none with
  | Except.error e2 => Except.error e2
  | Except.ok cid =>
      Except.ok (.dict [("type", .str "function_error"),
        ("function", pyDictGet d "function" (.str "unknown")),
        ("error", .str e),
        ("correlation_id", cid)])

/-- `CoralMessageProcessor._handle_function_call` (lines 67–116): extract
`function`, `arguments`, `metadata` and the correlation id, answer an
unregistered name with a `function_error` enumerating the supported
functions, otherwise run the handler and wrap its result in
`function_response`; any exception of the `try` body falls into
`fc_except_block`. -/
def handle_function_call (pr : ProcessRequest) (d : PyDict) :
    Except String PyVal :=
  let function_name := pyDictGet d "function" .none
  let arguments := pyDictGet d "arguments" (.dict [])
  let metadata := pyDictGet d "metadata" (.dict [])
  match pyGetAttr metadata "message_id" .none with
  | Except.error e => fc_except_block d e
  | Except.ok correlation_id =>
    match supportedLookup pr function_name with
    | Option.none =>
        Except.ok (.dict [("type", .str "function_error"),
          ("function", function_name),
          ("error", .str (unsupportedMsg function_name)),
          ("correlation_id", correlation_id)])
    | some handler =>
      match handler arguments with
      | Except.ok result =>
          Except.ok (.dict [("type", .str "function_response"),
            ("function", function_name),
            ("result", result),
            ("metadata", .dict [("sender", .str "yona_agent"),
              ("correlation_id", correlation_id)])])
      | Except.error e => fc_except_block d e

/-- `CoralMessageProcessor._handle_heartbeat` (lines 257–275): the constant
`heartbeat_response` payload. -/
def handle_heartbeat : PyVal :=
  .dict [("type", .str "heartbeat_response"),
    ("agent_id", .str "yona_agent"),
    ("status", .str "alive"),
    ("capabilities", .list (supportedFunctionNames.map .str))]

/-- `CoralMessageProcessor._handle_agent_discovery` (lines 277–303): the
constant `agent_info` payload. -/
def handle_agent_discovery : PyVal :=
  .dict [("type", .str "agent_info"),
    ("agent_id", .str "yona_agent"),
    ("description", .str "Yona agent for creating songs and other creative content"),
    ("capabilities", .dict [
      ("functions", .list (supportedFunctionNames.map .str)),
      ("description", .dict [
        ("create_song", .str "Create a new song based on a text prompt"),
        ("list_songs", .str "List recent songs from the database"),
        ("get_song", .str "Get details for a specific song by ID"),
        ("search_songs", .str "Search songs by title or lyrics")])]),
    ("status", .str "ready")]

/-- `CoralMessageProcessor.process_message` (lines 36–65): route by the
`type` field; `function_call` goes to `handle_function_call`, whose escaped
exceptions the outer `except` turns into an `error` reply; `heartbeat` and
`agent_discovery` get their constant replies; any other type — and any
non-string type value, which compares unequal to every string in Python —
yields no reply (`Option.none`).  A non-dict `message_data` makes
`message_data.get("type")` itself raise, which the outer `except` also
turns into an `error` reply. -/
def process_message (pr : ProcessRequest) (message_data : PyVal) :
    Option PyVal :=
  match message_data with
  | PyVal.dict d =>
    match pyDictGet d "type" .none with
    | PyVal.str mt =>
      if mt = "function_call" then
        match handle_function_call pr d with
        | Except.ok reply => some reply
        | Except.error e =>
            some (.dict [("type", .str "error"),
              ("error", .str e),
              ("original_message", message_data)])
      else if mt = "heartbeat" then some handle_heartbeat
      else if mt = "agent_discovery" then some handle_agent_discovery
      else Option.none
    | _ => Option.none
  | _ =>
      some (.dict [("type", .str "error"),
        ("error", .str attrGetError),
        ("original_message", message_data)])

/-! ## `src/coral/sse_client.py` — `CoralSSEClient`

The transport (`requests`, `sseclient`) is an external collaborator: the
inbound stream is a list of raw event payloads, JSON parsing is a parameter
`parse : String → Option PyVal` (`json.loads`, `Option.none` on
`JSONDecodeError`), and the outbound HTTP POST is a parameter
`post : PyVal → Except String PyVal` (`requests.post` + `raise_for_status`,
`Except.error` on any request exception). -/

/-- Mutable state of a `CoralSSEClient` that the senders can observe:
its identity and the `connected` flag read by `is_connected`. -/
structure CoralSSEClientState where
  agent_id : String
  connected : Bool

/-- `CoralSSEClient.is_connected` (lines 241–248). -/
def is_connected (st : CoralSSEClientState) : Bool :=
  st.connected

/-- `CoralSSEClient._listen_for_messages` (lines 90–120), restricted to the
per-event body: for each event, stop when the stop flag is set, skip events
with empty (falsy) `data`, parse the payload, and hand a successfully
parsed message to the handler; a `json.JSONDecodeError` is caught inside
the loop body and only skips that event.  The function returns the list of
messages handed to the handler, in stream order; it is total, so no
exception escapes the loop. -/
def listen_for_messages (parse : String → Option PyVal) (stop : Bool) :
    List String → List PyVal
  | [] => []
  | s :: rest =>
    if stop then []
    else if s = "" then listen_for_messages parse stop rest
    else
      match parse s with
      | some m => m :: listen_for_messages parse stop rest
      | Option.none => listen_for_messages parse stop rest

/-- The `response_data` dict built by `CoralSSEClient.send_response`
(lines 156–165). -/
def sendResponsePayload (st : CoralSSEClientState) (function_name : String)
    (result : PyVal) (correlation_id : PyVal) (now : Int) : PyVal :=
  .dict [("type", .str "function_response"),
    ("function", .str function_name),
    ("result", result),
    ("metadata", .dict [("sender", .str st.agent_id),
      ("timestamp", .num now),
      ("correlation_id", correlation_id)])]

/-- The `error_data` dict built by `CoralSSEClient.send_error_response`
(lines 194–203). -/
def sendErrorPayload (st : CoralSSEClientState) (function_name : String)
    (error_message : String) (correlation_id : PyVal) (now : Int) : PyVal :=
  .dict [("type", .str "function_error"),
    ("function", .str function_name),
    ("error", .str error_message),
    ("metadata", .dict [("sender", .str st.agent_id),
      ("timestamp", .num now),
      ("correlation_id", correlation_id)])]

/-- `CoralSSEClient.send_response` (lines 142–178): build the payload, POST
it once, return `True` on success and `False` on any exception; the client
state is untouched either way.  The result records the returned flag, the
state after the call, and the list of POST attempts made (always exactly
one — a failed send is not retried). -/
def send_response (post : PyVal → Except String PyVal)
    (st : CoralSSEClientState) (function_name : String) (result : PyVal)
    (correlation_id : PyVal) (now : Int) :
    Bool × CoralSSEClientState × List PyVal :=
  let response_data := sendResponsePayload st function_name result correlation_id now
  match post response_data with
  | Except.ok _ => (true, st, [response_data])
  | Except.error _ => (false, st, [response_data])

/-- `CoralSSEClient.send_error_response` (lines 180–215), modelled exactly
like `send_response`. -/
def send_error_response (post : PyVal → Except String PyVal)
    (st : CoralSSEClientState) (function_name : String) (error_message : String)
    (correlation_id : PyVal) (now : Int) :
    Bool × CoralSSEClientState × List PyVal :=
  let error_data := sendErrorPayload st function_name error_message correlation_id now
  match post error_data with
  | Except.ok _ => (true, st, [error_data])
  | Except.error _ => (false, st, [error_data])

/-- Observable actions of one iteration of the heartbeat loop: sleeping,
logging, or delivering a message to the outbound channel (a `requests.post`
or a `send_response`/`send_error_response` call). -/
inductive HbAction where
  | sleep (secs : Nat)
  | logDebug (v : PyVal)
  | send (v : PyVal)

/-- True exactly on outbound deliveries. -/
def HbAction.isSend : HbAction → Bool
  | .send _ => true
  | _ => false

/-- One iteration of the `while` body of `CoralSSEClient._heartbeat`
(lines 122–140), entered with the loop guard already true: sleep 30
seconds, then, if still connected, build `heartbeat_data` and pass it to
`logger.debug`.  The body contains no outbound call, so the returned action
trace is what the iteration observably does. -/
def heartbeat_iteration (connected : Bool) (agent_id : String) (now : Int) :
    List HbAction :=
  HbAction.sleep 30 ::
    (if connected then
      [HbAction.logDebug (.dict [("type", .str "heartbeat"),
        ("agent_id", .str agent_id),
        ("timestamp", .num now)])]
    else [])

/-! ## `yona_coral_langchain_agent.py` — `main` (lines 133–191)

The connect loop: `max_retries = 5; attempt = 0; while attempt < max_retries`,
each iteration opens the MCP connection; on `ClosedResourceError` it
increments `attempt` and, when `attempt < max_retries` still holds, sleeps
5 seconds and retries, otherwise logs `Max retries reached` and exits.
The claims only concern runs in which every connection attempt raises
`ClosedResourceError`, so the run below models exactly those; it is indexed
by the remaining attempt budget `max_retries - attempt`, which makes the
recursion structural. -/

/-- Events of the connect loop: one connection attempt, or one fixed sleep
of the given number of seconds between attempts. -/
inductive ConnEvent where
  | tryConnect
  | sleep (secs : Nat)
  deriving DecidableEq

/-- The event trace of `main`'s `while` loop when every attempt raises
`ClosedResourceError`, as a function of the remaining budget
`max_retries - attempt` (the loop runs while `attempt < max_retries`, i.e.
while the budget is positive; after a failure the budget shrinks by one and
the loop only sleeps and continues when budget remains). -/
def mainRetryRun : Nat → List ConnEvent
  | 0 => []
  | 1 => [ConnEvent.tryConnect]
  | r + 2 => ConnEvent.tryConnect :: ConnEvent.sleep 5 :: mainRetryRun (r + 1)

/-- Modelled from the spec: the claimed retry policy — after a failed
attempt increment `retry_count`; while `retry_count` is at most
`max_retries`, wait the fixed backoff and re-attempt; otherwise stop.
Indexed by the remaining budget `max_retries + 1 - retry_count`, which is
positive exactly while another attempt is still permitted. -/
def specRetryRun : Nat → List ConnEvent
  | 0 => []
  | 1 => [ConnEvent.tryConnect]
  | r + 2 => ConnEvent.tryConnect :: ConnEvent.sleep 5 :: specRetryRun (r + 1)

/-! ## Statement helpers

Accessors used only to state properties of the dict-shaped replies; they
mirror how a reader of the wire format extracts a field. -/

/-- Field access on a reply dict (`None` when absent or not a dict). -/
def replyField (r : PyVal) (k : String) : PyVal :=
  match r with
  | .dict d => pyDictGet d k .none
  | _ => .none

/-- The correlation id carried by an inbound message: its
`metadata.message_id`, as read by `_handle_function_call`. -/
def envCorrelationId (d : PyDict) : PyVal :=
  match pyDictGet d "metadata" (.dict []) with
  | .dict m => pyDictGet m "message_id" .none
  | _ => .none

/-- The correlation id carried by an outbound reply: `function_response`
replies nest it under `metadata.correlation_id`, every other reply kind
carries it at top level. -/
def replyCorrelationId (r : PyVal) : PyVal :=
  match replyField r "type" with
  | .str "function_response" =>
      replyField (replyField r "metadata") "correlation_id"
  | _ => replyField r "correlation_id"

/-- The outcome of running the registered handler of a message on the
message's arguments (`Option.none` when the function is unregistered). -/
def handlerOutcome (pr : ProcessRequest) (d : PyDict) :
    Option (Except String PyVal) :=
  (supportedLookup pr (pyDictGet d "function" .none)).map
    (fun h => h (pyDictGet d "arguments" (.dict [])))

/-! ## Concrete fixtures for witnesses and counterexamples -/

/-- A trivial stand-in for `yona_agent.process_request` that answers every
request successfully. -/
def prStub : ProcessRequest := fun _ => Except.ok (.str "ok")

/-- A `function_call` for `list_songs` with a correlation id. -/
def listSongsCall : PyDict :=
  [("type", .str "function_call"),
   ("function", .str "list_songs"),
   ("arguments", .dict [("limit", .num 3)]),
   ("metadata", .dict [("message_id", .str "m1")])]

/-- A `function_call` for an unregistered function name. -/
def unknownFnCall : PyDict :=
  [("type", .str "function_call"),
   ("function", .str "produce_album"),
   ("arguments", .dict []),
   ("metadata", .dict [("message_id", .str "m2")])]

/-- The spec's scenario input: `create_song` with empty arguments and
correlation id `"c1"`. -/
def createSongNoArgs : PyDict :=
  [("type", .str "function_call"),
   ("function", .str "create_song"),
   ("arguments", .dict []),
   ("metadata", .dict [("message_id", .str "c1")])]

/-- A `function_call` whose `sender`/`sender_id` equal the agent's own
`agent_id` (`"yona_agent"`): a self-echo message. -/
def selfEchoMessage : PyVal :=
  .dict [("type", .str "function_call"),
    ("sender_id", .str "yona_agent"),
    ("sender", .str "yona_agent"),
    ("function", .str "list_songs"),
    ("arguments", .dict []),
    ("metadata", .dict [("message_id", .str "m-echo")])]

/-- The reply `process_message` produces for `selfEchoMessage`. -/
def selfEchoReply : PyVal :=
  .dict [("type", .str "function_response"),
    ("function", .str "list_songs"),
    ("result", .dict [("songs", .str "ok"),
      ("limit", .num 10),
      ("status", .str "completed")]),
    ("metadata", .dict [("sender", .str "yona_agent"),
      ("correlation_id", .str "m-echo")])]

/-- A `function_call` to `create_song` whose `arguments` bind `"prompt"`
to the empty string, with the given correlation id. -/
def emptyPromptCreateSong (cid : PyVal) : PyVal :=
  .dict [("type", .str "function_call"),
    ("function", .str "create_song"),
    ("arguments", .dict [("prompt", .str "")]),
    ("metadata", .dict [("message_id", cid)])]

/-- A bare `heartbeat` message. -/
def heartbeatMsg : PyDict := [("type", .str "heartbeat")]

/-- A bare `agent_discovery` message. -/
def discoveryMsg : PyDict := [("type", .str "agent_discovery")]

/-- A message of a kind the dispatcher does not handle. -/
def unknownTypeMsg : PyDict := [("type", .str "unknown_type")]

/-- A toy `json.loads` stand-in for the listening-loop witness. -/
def parseStub : String → Option PyVal :=
  fun s => if s = "good" then some (.str "ok") else Option.none

/-- A POST stand-in whose delivery always fails. -/
def postFail : PyVal → Except String PyVal :=
  fun _ => Except.error "Connection refused"

/-- A client state as built by `CoralSSEClient.__init__` after a
successful `connect`. -/
def clientConnected : CoralSSEClientState :=
  { agent_id := "yona_agent", connected := true }

/-! ## General lemmas about the embedding -/

theorem supported_functions_keys (pr : ProcessRequest) :
    (supported_functions pr).map Prod.fst = supportedFunctionNames := rfl

theorem supportedLookup_of_mem (pr : ProcessRequest) (fn : String)
    (h : fn ∈ supportedFunctionNames) :
    ∃ hd, supportedLookup pr (.str fn) = some hd := by
  fin_cases h <;> exact ⟨_, rfl⟩

theorem pyDictGet_default_irrel {d : PyDict} {k : String} {v d1 : PyVal}
    (d2 : PyVal) (h : pyDictGet d k d1 = v) (hne : v ≠ d1) :
    pyDictGet d k d2 = v := by
  unfold pyDictGet at h ⊢
  cases hf : d.find? (fun p => p.1 == k) with
  | none => rw [hf] at h; exact absurd h.symm hne
  | some p => rw [hf] at h; exact h

theorem infix_append_left_str {l : List Char} {t : String} (s : String)
    (h : l <:+: t.data) : l <:+: (s ++ t).data := by
  rcases h with ⟨u, v, huv⟩
  exact ⟨s.data ++ u, v, by rw [String.data_append, ← huv]; simp⟩

/-! ## The claims -/

/-- C1: for every `function_call` Envelope whose function name is
registered (and whose `metadata` is a dict, so that the Envelope carries a
correlation id at `metadata.message_id` as the spec's data model
prescribes), `process_message` returns exactly one reply (`some r`, the
`Option` result modelling zero-or-one replies), the reply carries the
input's correlation id, and its kind is `function_response` when the
handler returns normally and `function_error` when the handler raises. -/
theorem c1_dispatch_registered (pr : ProcessRequest) (d : PyDict) (fn : String)
    (htype : pyDictGet d "type" .none = .str "function_call")
    (hfn : pyDictGet d "function" .none = .str fn)
    (hreg : fn ∈ supportedFunctionNames)
    (hmeta : (pyDictGet d "metadata" (.dict [])).isDict = true) :
    ∃ r, process_message pr (.dict d) = some r ∧
      replyCorrelationId r = envCorrelationId d ∧
      ((∃ v, handlerOutcome pr d = some (Except.ok v)) →
        replyField r "type" = .str "function_response") ∧
      ((∃ e, handlerOutcome pr d = some (Except.error e)) →
        replyField r "type" = .str "function_error") := by
  obtain ⟨m, hm⟩ : ∃ m, pyDictGet d "metadata" (.dict []) = .dict m := by
    revert hmeta
    cases pyDictGet d "metadata" (.dict []) <;> intro hmeta <;>
      first
        | exact ⟨_, rfl⟩
        | simp [PyVal.isDict] at hmeta
  obtain ⟨hd, hlk0⟩ := supportedLookup_of_mem pr fn hreg
  have hlk : supportedLookup pr (pyDictGet d "function" .none) = some hd := by
    rw [hfn]; exact hlk0
  have hout : handlerOutcome pr d =
      some (hd (pyDictGet d "arguments" (.dict []))) := by
    simp [handlerOutcome, hlk]
  have harg : pyGetAttr (pyDictGet d "metadata" (.dict [])) "message_id" .none
      = Except.ok (pyDictGet m "message_id" .none) := by
    rw [hm]; rfl
  have henv : envCorrelationId d = pyDictGet m "message_id" .none := by
    simp only [envCorrelationId, hm]
  cases hres : hd (pyDictGet d "arguments" (.dict [])) with
  | ok v =>
    have hfc : handle_function_call pr d =
        Except.ok (.dict [("type", .str "function_response"),
          ("function", pyDictGet d "function" .none),
          ("result", v),
          ("metadata", .dict [("sender", .str "yona_agent"),
            ("correlation_id", pyDictGet m "message_id" .none)])]) := by
      simp only [handle_function_call, harg, hlk, hres]
    have hpm : process_message pr (.dict d) =
        some (.dict [("type", .str "function_response"),
          ("function", pyDictGet d "function" .none),
          ("result", v),
          ("metadata", .dict [("sender", .str "yona_agent"),
            ("correlation_id", pyDictGet m "message_id" .none)])]) := by
      simp only [process_message, htype, reduceIte, hfc]
    refine ⟨_, hpm, ?_, ?_, ?_⟩
    · rw [henv]; rfl
    · intro _; rfl
    · rintro ⟨e, he⟩
      rw [hout, hres] at he
      simp at he
  | error e =>
    have hfc : handle_function_call pr d =
        Except.ok (.dict [("type", .str "function_error"),
          ("function", pyDictGet d "function" (.str "unknown")),
          ("error", .str e),
          ("correlation_id", pyDictGet m "message_id" .none)]) := by
      simp only [handle_function_call, harg, hlk, hres, fc_except_block]
    have hpm : process_message pr (.dict d) =
        some (.dict [("type", .str "function_error"),
          ("function", pyDictGet d "function" (.str "unknown")),
          ("error", .str e),
          ("correlation_id", pyDictGet m "message_id" .none)]) := by
      simp only [process_message, htype, reduceIte, hfc]
    refine ⟨_, hpm, ?_, ?_, ?_⟩
    · rw [henv]; rfl
    · rintro ⟨v, hv⟩
      rw [hout, hres] at hv
      simp at hv
    · intro _; rfl

/-- Witness for C1: a concrete `list_songs` call with correlation id
`"m1"` against an agent stub that answers successfully. -/
theorem c1_dispatch_registered_witness :
    (pyDictGet listSongsCall "type" .none = .str "function_call") ∧
    (pyDictGet listSongsCall "function" .none = .str "list_songs") ∧
    ("list_songs" ∈ supportedFunctionNames) ∧
    ((pyDictGet listSongsCall "metadata" (.dict [])).isDict = true) ∧
    (∃ r, process_message prStub (.dict listSongsCall) = some r ∧
      replyCorrelationId r = envCorrelationId listSongsCall ∧
      ((∃ v, handlerOutcome prStub listSongsCall = some (Except.ok v)) →
        replyField r "type" = .str "function_response") ∧
      ((∃ e, handlerOutcome prStub listSongsCall = some (Except.error e)) →
        replyField r "type" = .str "function_error")) :=
  ⟨rfl, rfl, by decide, rfl,
    c1_dispatch_registered prStub listSongsCall "list_songs" rfl rfl (by decide) rfl⟩

/-- C2: for a `function_call` whose function name is not registered (and
whose `metadata` is a dict), `process_message` returns a `function_error`
reply with the input's correlation id whose error message enumerates every
registered function name. -/
theorem c2_dispatch_unregistered (pr : ProcessRequest) (d : PyDict) (fv : PyVal)
    (htype : pyDictGet d "type" .none = .str "function_call")
    (hfv : pyDictGet d "function" .none = fv)
    (hunreg : supportedLookup pr fv = Option.none)
    (hmeta : (pyDictGet d "metadata" (.dict [])).isDict = true) :
    process_message pr (.dict d) =
      some (.dict [("type", .str "function_error"),
        ("function", fv),
        ("error", .str (unsupportedMsg fv)),
        ("correlation_id", envCorrelationId d)]) ∧
    ∀ n ∈ supportedFunctionNames, n.data <:+: (unsupportedMsg fv).data := by
  obtain ⟨m, hm⟩ : ∃ m, pyDictGet d "metadata" (.dict []) = .dict m := by
    revert hmeta
    cases pyDictGet d "metadata" (.dict []) <;> intro hmeta <;>
      first
        | exact ⟨_, rfl⟩
        | simp [PyVal.isDict] at hmeta
  have harg : pyGetAttr (pyDictGet d "metadata" (.dict [])) "message_id" .none
      = Except.ok (pyDictGet m "message_id" .none) := by
    rw [hm]; rfl
  have henv : envCorrelationId d = pyDictGet m "message_id" .none := by
    simp only [envCorrelationId, hm]
  have hlk : supportedLookup pr (pyDictGet d "function" .none) = Option.none := by
    rw [hfv]; exact hunreg
  constructor
  · have hfc : handle_function_call pr d =
        Except.ok (.dict [("type", .str "function_error"),
          ("function", pyDictGet d "function" .none),
          ("error", .str (unsupportedMsg (pyDictGet d "function" .none))),
          ("correlation_id", pyDictGet m "message_id" .none)]) := by
      simp only [handle_function_call, harg, hlk]
    rw [henv, ← hfv]
    simp only [process_message, htype, reduceIte, hfc]
  · intro n hn
    have hk : n.data <:+: (pyStrListRepr supportedFunctionNames).data := by
      fin_cases hn <;> decide
    unfold unsupportedMsg
    exact infix_append_left_str _ hk

/-- Witness for C2: a call to the unregistered function
`"produce_album"`. -/
theorem c2_dispatch_unregistered_witness :
    (pyDictGet unknownFnCall "type" .none = .str "function_call") ∧
    (pyDictGet unknownFnCall "function" .none = .str "produce_album") ∧
    (supportedLookup prStub (.str "produce_album") = Option.none) ∧
    ((pyDictGet unknownFnCall "metadata" (.dict [])).isDict = true) ∧
    (process_message prStub (.dict unknownFnCall) =
      some (.dict [("type", .str "function_error"),
        ("function", .str "produce_album"),
        ("error", .str (unsupportedMsg (.str "produce_album"))),
        ("correlation_id", envCorrelationId unknownFnCall)]) ∧
     ∀ n ∈ supportedFunctionNames,
       n.data <:+: (unsupportedMsg (.str "produce_album")).data) :=
  ⟨rfl, rfl, rfl, rfl,
    c2_dispatch_unregistered prStub unknownFnCall (.str "produce_album")
      rfl rfl rfl rfl⟩

/-- C3: when the registered handler of a `function_call` raises,
`process_message` catches the exception (the embedding's total `match` on
the handler's `Except` result — nothing propagates) and returns a
`function_error` reply carrying the exception's text and the input's
correlation id. -/
theorem c3_handler_exception_caught (pr : ProcessRequest) (d : PyDict)
    (fn e : String)
    (htype : pyDictGet d "type" .none = .str "function_call")
    (hfn : pyDictGet d "function" .none = .str fn)
    (hmeta : (pyDictGet d "metadata" (.dict [])).isDict = true)
    (hres : handlerOutcome pr d = some (Except.error e)) :
    process_message pr (.dict d) =
      some (.dict [("type", .str "function_error"),
        ("function", .str fn),
        ("error", .str e),
        ("correlation_id", envCorrelationId d)]) := by
  obtain ⟨m, hm⟩ : ∃ m, pyDictGet d "metadata" (.dict []) = .dict m := by
    revert hmeta
    cases pyDictGet d "metadata" (.dict []) <;> intro hmeta <;>
      first
        | exact ⟨_, rfl⟩
        | simp [PyVal.isDict] at hmeta
  have harg : pyGetAttr (pyDictGet d "metadata" (.dict [])) "message_id" .none
      = Except.ok (pyDictGet m "message_id" .none) := by
    rw [hm]; rfl
  have henv : envCorrelationId d = pyDictGet m "message_id" .none := by
    simp only [envCorrelationId, hm]
  cases hlk : supportedLookup pr (pyDictGet d "function" .none) with
  | none => simp [handlerOutcome, hlk] at hres
  | some hd =>
    have hcall : hd (pyDictGet d "arguments" (.dict [])) = Except.error e := by
      simpa [handlerOutcome, hlk] using hres
    have hfun2 : pyDictGet d "function" (.str "unknown") = .str fn :=
      pyDictGet_default_irrel _ hfn (by simp)
    have hfc : handle_function_call pr d =
        Except.ok (.dict [("type", .str "function_error"),
          ("function", .str fn),
          ("error", .str e),
          ("correlation_id", pyDictGet m "message_id" .none)]) := by
      simp only [handle_function_call, harg, hlk, hcall, fc_except_block, hfun2]
    rw [henv]
    simp only [process_message, htype, reduceIte, hfc]

/-- Witness for C3 at the spec's scenario: `create_song` with empty
arguments and correlation id `"c1"`; the handler raises
`ValueError("Missing required argument: prompt")` and dispatch replies
with a `function_error` carrying that text and `"c1"`. -/
theorem c3_handler_exception_caught_witness :
    (pyDictGet createSongNoArgs "type" .none = .str "function_call") ∧
    (pyDictGet createSongNoArgs "function" .none = .str "create_song") ∧
    ((pyDictGet createSongNoArgs "metadata" (.dict [])).isDict = true) ∧
    (handlerOutcome prStub createSongNoArgs =
      some (Except.error "Missing required argument: prompt")) ∧
    process_message prStub (.dict createSongNoArgs) =
      some (.dict [("type", .str "function_error"),
        ("function", .str "create_song"),
        ("error", .str "Missing required argument: prompt"),
        ("correlation_id", .str "c1")]) :=
  ⟨rfl, rfl, rfl, rfl,
    c3_handler_exception_caught prStub createSongNoArgs "create_song"
      "Missing required argument: prompt" rfl rfl rfl rfl⟩

/-- C4: a `heartbeat` message always yields a `heartbeat_response` whose
capabilities list every registered function name, and an `agent_discovery`
message always yields an `agent_info` carrying the agent id, the
description, every registered function name, and a per-function
description for each of them. -/
theorem c4_heartbeat_and_discovery (pr : ProcessRequest) (d1 d2 : PyDict)
    (h1 : pyDictGet d1 "type" .none = .str "heartbeat")
    (h2 : pyDictGet d2 "type" .none = .str "agent_discovery") :
    (∃ r, process_message pr (.dict d1) = some r ∧
      replyField r "type" = .str "heartbeat_response" ∧
      ∃ caps, replyField r "capabilities" = .list caps ∧
        ∀ n ∈ supportedFunctionNames, PyVal.str n ∈ caps) ∧
    (∃ r, process_message pr (.dict d2) = some r ∧
      replyField r "type" = .str "agent_info" ∧
      replyField r "agent_id" = .str "yona_agent" ∧
      replyField r "description" =
        .str "Yona agent for creating songs and other creative content" ∧
      (∃ fns, replyField (replyField r "capabilities") "functions" = .list fns ∧
        ∀ n ∈ supportedFunctionNames, PyVal.str n ∈ fns) ∧
      (∀ n ∈ supportedFunctionNames,
        ∃ ds, replyField (replyField (replyField r "capabilities") "description") n
          = .str ds)) := by
  constructor
  · refine ⟨handle_heartbeat, ?_, rfl, ?_⟩
    · simp [process_message, h1]
    · refine ⟨supportedFunctionNames.map .str, rfl, ?_⟩
      intro n hn
      exact List.mem_map_of_mem _ hn
  · refine ⟨handle_agent_discovery, ?_, rfl, rfl, rfl, ?_, ?_⟩
    · simp [process_message, h2]
    · refine ⟨supportedFunctionNames.map .str, rfl, ?_⟩
      intro n hn
      exact List.mem_map_of_mem _ hn
    · intro n hn
      fin_cases hn <;> exact ⟨_, rfl⟩

/-- Witness for C4: bare `heartbeat` and `agent_discovery` messages. -/
theorem c4_heartbeat_and_discovery_witness :
    (pyDictGet heartbeatMsg "type" .none = .str "heartbeat") ∧
    (pyDictGet discoveryMsg "type" .none = .str "agent_discovery") ∧
    ((∃ r, process_message prStub (.dict heartbeatMsg) = some r ∧
      replyField r "type" = .str "heartbeat_response" ∧
      ∃ caps, replyField r "capabilities" = .list caps ∧
        ∀ n ∈ supportedFunctionNames, PyVal.str n ∈ caps) ∧
    (∃ r, process_message prStub (.dict discoveryMsg) = some r ∧
      replyField r "type" = .str "agent_info" ∧
      replyField r "agent_id" = .str "yona_agent" ∧
      replyField r "description" =
        .str "Yona agent for creating songs and other creative content" ∧
      (∃ fns, replyField (replyField r "capabilities") "functions" = .list fns ∧
        ∀ n ∈ supportedFunctionNames, PyVal.str n ∈ fns) ∧
      (∀ n ∈ supportedFunctionNames,
        ∃ ds, replyField (replyField (replyField r "capabilities") "description") n
          = .str ds))) :=
  ⟨rfl, rfl, c4_heartbeat_and_discovery prStub heartbeatMsg discoveryMsg rfl rfl⟩

/-- C5 (amended): for every Envelope whose kind is none of
`function_call`, `heartbeat`, `agent_discovery`, dispatch returns nothing;
`process_message` never inspects `sender`/`sender_id`, so a message of a
handled kind is processed even when its sender is the agent itself (see
the counterexample). -/
theorem c5_unhandled_kind_no_reply (pr : ProcessRequest) (d : PyDict)
    (h1 : pyDictGet d "type" .none ≠ .str "function_call")
    (h2 : pyDictGet d "type" .none ≠ .str "heartbeat")
    (h3 : pyDictGet d "type" .none ≠ .str "agent_discovery") :
    process_message pr (.dict d) = Option.none := by
  cases hmt : pyDictGet d "type" .none
  case str mt =>
    have g1 : ¬(mt = "function_call") := fun hEq => h1 (by rw [hmt, hEq])
    have g2 : ¬(mt = "heartbeat") := fun hEq => h2 (by rw [hmt, hEq])
    have g3 : ¬(mt = "agent_discovery") := fun hEq => h3 (by rw [hmt, hEq])
    simp only [process_message, hmt, if_neg g1, if_neg g2, if_neg g3]
  all_goals simp only [process_message, hmt]

/-- Witness for C5 (amended) at a message of kind `"unknown_type"`. -/
theorem c5_unhandled_kind_no_reply_witness :
    (pyDictGet unknownTypeMsg "type" .none ≠ .str "function_call") ∧
    (pyDictGet unknownTypeMsg "type" .none ≠ .str "heartbeat") ∧
    (pyDictGet unknownTypeMsg "type" .none ≠ .str "agent_discovery") ∧
    process_message prStub (.dict unknownTypeMsg) = Option.none :=
  ⟨by simp [unknownTypeMsg, pyDictGet],
   by simp [unknownTypeMsg, pyDictGet],
   by simp [unknownTypeMsg, pyDictGet],
   c5_unhandled_kind_no_reply prStub unknownTypeMsg
     (by simp [unknownTypeMsg, pyDictGet])
     (by simp [unknownTypeMsg, pyDictGet])
     (by simp [unknownTypeMsg, pyDictGet])⟩

/-- C5 counterexample: the claim also asserts that every Envelope whose
`sender_id` equals the agent's own `agent_id` gets no reply; but
`process_message` never reads the sender, so a self-sent `function_call`
(`selfEchoMessage`, whose `sender` and `sender_id` are `"yona_agent"`)
still produces a reply. -/
theorem c5_self_echo_counterexample :
    process_message prStub selfEchoMessage ≠ Option.none := by
  have h : process_message prStub selfEchoMessage = some selfEchoReply := rfl
  rw [h]
  simp

/-- C6: a raw event whose payload fails to parse is skipped inside the
listening loop (the loop body catches `json.JSONDecodeError`; the
embedding is a total function, so nothing raises out of the loop and
iteration of the stream continues), and the next valid event in the
sequence is still decoded and handed to the handler. -/
theorem c6_parse_failure_skipped (parse : String → Option PyVal)
    (bad good : String) (m : PyVal) (rest : List String)
    (hbad : parse bad = Option.none) (hgood : parse good = some m)
    (hg : good ≠ "") :
    listen_for_messages parse false (bad :: good :: rest) =
      m :: listen_for_messages parse false rest := by
  by_cases hb : bad = ""
  · subst hb
    simp [listen_for_messages, hgood, hg]
  · simp [listen_for_messages, hb, hbad, hgood, hg]

/-- Witness for C6: a malformed payload `"bad"` followed by the valid
payload `"good"`. -/
theorem c6_parse_failure_skipped_witness :
    (parseStub "bad" = Option.none) ∧
    (parseStub "good" = some (.str "ok")) ∧
    ("good" ≠ "") ∧
    listen_for_messages parseStub false ["bad", "good"] =
      .str "ok" :: listen_for_messages parseStub false [] :=
  ⟨rfl, rfl, by decide,
    c6_parse_failure_skipped parseStub "bad" "good" (.str "ok") []
      rfl rfl (by decide)⟩

theorem mainRetryRun_count_tryConnect (r : Nat) :
    (mainRetryRun r).count ConnEvent.tryConnect = r := by
  induction r using Nat.strong_induction_on with
  | _ r ih =>
    match r with
    | 0 => rfl
    | 1 => rfl
    | r + 2 =>
      have h := ih (r + 1) (by omega)
      simp [mainRetryRun, List.count_cons, h]

theorem mainRetryRun_count_sleep (r : Nat) :
    (mainRetryRun r).count (ConnEvent.sleep 5) = r - 1 := by
  induction r using Nat.strong_induction_on with
  | _ r ih =>
    match r with
    | 0 => rfl
    | 1 => rfl
    | r + 2 =>
      have h := ih (r + 1) (by omega)
      simp [mainRetryRun, List.count_cons, h]

theorem mainRetryRun_events (r : Nat) :
    ∀ e ∈ mainRetryRun r, e = ConnEvent.tryConnect ∨ e = ConnEvent.sleep 5 := by
  induction r using Nat.strong_induction_on with
  | _ r ih =>
    match r with
    | 0 => intro e he; simp [mainRetryRun] at he
    | 1 =>
      intro e he
      simp [mainRetryRun] at he
      exact Or.inl he
    | r + 2 =>
      intro e he
      simp [mainRetryRun] at he
      rcases he with h | h | h
      · exact Or.inl h
      · exact Or.inr h
      · exact ih (r + 1) (by omega) e h

/-- C7 (amended): in a run in which every connection attempt raises
`ClosedResourceError`, `main`'s loop makes exactly `max_retries`
connection attempts — it re-attempts only while the failure count is
strictly below `max_retries`, not while it is `≤ max_retries` — every
wait between consecutive attempts is the fixed 5-second backoff
(`max_retries - 1` sleeps in total), and the run then ends with no
further attempts. -/
theorem c7_retry_bound_amended (max_retries : Nat) :
    (mainRetryRun max_retries).count ConnEvent.tryConnect = max_retries ∧
    (mainRetryRun max_retries).count (ConnEvent.sleep 5) = max_retries - 1 ∧
    ∀ e ∈ mainRetryRun max_retries,
      e = ConnEvent.tryConnect ∨ e = ConnEvent.sleep 5 :=
  ⟨mainRetryRun_count_tryConnect _, mainRetryRun_count_sleep _,
    mainRetryRun_events _⟩

/-- C7 counterexample: under the claim's policy (re-attempt while
`retry_count ≤ max_retries`) an all-failure run at the default
`max_retries = 5` performs 6 connection attempts, but the code's loop
(`while attempt < max_retries`) performs exactly 5, so the claim's retry
condition does not describe the code. -/
theorem c7_retry_policy_counterexample :
    (specRetryRun (5 + 1)).count ConnEvent.tryConnect = 6 ∧
    (mainRetryRun 5).count ConnEvent.tryConnect = 5 ∧
    (6 : Nat) ≠ 5 := by decide

/-- C8: a failed outbound delivery is surfaced to the caller as a `False`
return value (the senders catch every request exception and are total),
exactly one POST is attempted — the reply is dropped, never retried — and
the connection state observed by `is_connected` is unchanged; this holds
for both `send_response` and `send_error_response`. -/
theorem c8_send_failure_surfaced (post : PyVal → Except String PyVal)
    (st : CoralSSEClientState) (fn1 fn2 : String) (result : PyVal)
    (errMsg : String) (cid1 cid2 : PyVal) (now1 now2 : Int) (e1 e2 : String)
    (h1 : post (sendResponsePayload st fn1 result cid1 now1) = Except.error e1)
    (h2 : post (sendErrorPayload st fn2 errMsg cid2 now2) = Except.error e2) :
    ((send_response post st fn1 result cid1 now1).1 = false ∧
     (send_response post st fn1 result cid1 now1).2.1 = st ∧
     is_connected (send_response post st fn1 result cid1 now1).2.1 =
       is_connected st ∧
     (send_response post st fn1 result cid1 now1).2.2.length = 1) ∧
    ((send_error_response post st fn2 errMsg cid2 now2).1 = false ∧
     (send_error_response post st fn2 errMsg cid2 now2).2.1 = st ∧
     is_connected (send_error_response post st fn2 errMsg cid2 now2).2.1 =
       is_connected st ∧
     (send_error_response post st fn2 errMsg cid2 now2).2.2.length = 1) := by
  refine ⟨⟨?_, ?_, ?_, ?_⟩, ?_, ?_, ?_, ?_⟩ <;>
    simp [send_response, send_error_response, h1, h2]

/-- Witness for C8: a POST that always fails, against a connected client
state. -/
theorem c8_send_failure_surfaced_witness :
    (postFail (sendResponsePayload clientConnected "create_song" (.str "r")
      (.str "c") 0) = Except.error "Connection refused") ∧
    (postFail (sendErrorPayload clientConnected "create_song" "boom"
      (.str "c") 0) = Except.error "Connection refused") ∧
    (((send_response postFail clientConnected "create_song" (.str "r")
        (.str "c") 0).1 = false ∧
      (send_response postFail clientConnected "create_song" (.str "r")
        (.str "c") 0).2.1 = clientConnected ∧
      is_connected (send_response postFail clientConnected "create_song"
        (.str "r") (.str "c") 0).2.1 = is_connected clientConnected ∧
      (send_response postFail clientConnected "create_song" (.str "r")
        (.str "c") 0).2.2.length = 1) ∧
     ((send_error_response postFail clientConnected "create_song" "boom"
        (.str "c") 0).1 = false ∧
      (send_error_response postFail clientConnected "create_song" "boom"
        (.str "c") 0).2.1 = clientConnected ∧
      is_connected (send_error_response postFail clientConnected "create_song"
        "boom" (.str "c") 0).2.1 = is_connected clientConnected ∧
      (send_error_response postFail clientConnected "create_song" "boom"
        (.str "c") 0).2.2.length = 1)) :=
  ⟨rfl, rfl,
    c8_send_failure_surfaced postFail clientConnected "create_song"
      "create_song" (.str "r") "boom" (.str "c") (.str "c") 0 0
      "Connection refused" "Connection refused" rfl rfl⟩

/-- C9: one iteration of the heartbeat loop only sleeps and logs the
constructed heartbeat dict; it performs no outbound delivery at all, so
no heartbeat ever reaches the Responder — contrary to the claim (and to
the function's own docstring and log message, which say it sends the
heartbeat). -/
theorem c9_heartbeat_iteration_sends_nothing (connected : Bool)
    (agent_id : String) (now : Int) :
    (heartbeat_iteration connected agent_id now).filter HbAction.isSend = [] := by
  cases connected <;> rfl

/-- C10: a `create_song` call whose arguments bind `"prompt"` to the empty
string is treated exactly as a missing prompt: `arguments.get("prompt", "")`
yields a falsy value, the handler raises
`ValueError("Missing required argument: prompt")`, and dispatch returns a
`function_error` with that text and the input's correlation id. -/
theorem c10_empty_prompt_rejected (pr : ProcessRequest) (cid : PyVal) :
    process_message pr (emptyPromptCreateSong cid) =
      some (.dict [("type", .str "function_error"),
        ("function", .str "create_song"),
        ("error", .str "Missing required argument: prompt"),
        ("correlation_id", cid)]) := rfl

end Yona
